import Mathlib

/-!
Shallow embedding of `src/state_capitol_verifier.py`, a linear batch pipeline
that loads a JSON array of state-capital records, geocodes each record's
address against the U.S. Census geocoder, mutates matched records in place,
writes the mutated sequence back out, and re-checks the written file.

Modelling conventions:
* Parsed JSON data is the inductive `Json`; numbers are rationals (every
  Python float is a rational; the claims never depend on binary-float
  artifacts).
* File contents are modelled at the parsed-value level: `json.dumps` followed
  by `json.load` is the standard library's inverse pair on
  JSON-representable values, so the written file is represented by the
  `Json` value that was dumped.
* Python exceptions are an explicit `PyError` sum, and every fallible helper
  returns `Except PyError _`.  The `ValueError("Root element must be a JSON
  array")` raised in `load_json` is the spec's `FormatError`; exceptions
  raised by `requests` (transport failures and `raise_for_status`) are the
  spec's `NetworkError`.
* The network is an oracle `net : String → NetResult` giving, for each
  address string, either a transport failure or an HTTP status plus parsed
  response body.  (`CENSUS_URL.format` URL-encodes the address; since the
  encoding is injective, keying the oracle on the raw address is faithful.)
* `time.sleep(args.pause)` and the request timeout only affect real time,
  not any value the program computes, so they have no counterpart here.
-/

namespace StateCapitolVerifier

/-- Parsed JSON values (the result of `json.load` / argument of `json.dumps`).
Objects are association lists with distinct keys, in insertion order, as for
Python dicts produced by the `json` module. -/
inductive Json where
  | null : Json
  | bool (b : Bool) : Json
  | num (q : ℚ) : Json
  | str (s : String) : Json
  | arr (elems : List Json) : Json
  | obj (fields : List (String × Json)) : Json

mutual

/-- Structural (= Python `==`) equality test on JSON values. -/
def Json.beq : Json → Json → Bool
  | .null, .null => true
  | .bool a, .bool b => a == b
  | .num a, .num b => a == b
  | .str a, .str b => a == b
  | .arr xs, .arr ys => Json.beqList xs ys
  | .obj xs, .obj ys => Json.beqFields xs ys
  | _, _ => false

def Json.beqList : List Json → List Json → Bool
  | [], [] => true
  | x :: xs, y :: ys => Json.beq x y && Json.beqList xs ys
  | _, _ => false

def Json.beqFields : List (String × Json) → List (String × Json) → Bool
  | [], [] => true
  | (k, v) :: xs, (k', v') :: ys => k == k' && Json.beq v v' && Json.beqFields xs ys
  | _, _ => false

end

theorem Json.beq_iff_eq : ∀ a b : Json, Json.beq a b = true ↔ a = b := by
  refine Json.beq.induct (fun a b => Json.beq a b = true ↔ a = b)
    (fun xs ys => Json.beqFields xs ys = true ↔ xs = ys)
    (fun xs ys => Json.beqList xs ys = true ↔ xs = ys)
    ?_ ?_ ?_ ?_ ?_ ?_ ?_ ?_ ?_ ?_ ?_ ?_ ?_
  · simp [Json.beq]
  · intro a b; simp [Json.beq]
  · intro a b; simp [Json.beq]
  · intro a b; simp [Json.beq]
  · intro xs ys ih; simp [Json.beq, ih]
  · intro xs ys ih; simp [Json.beq, ih]
  · intro t x h1 h2 h3 h4 h5 h6
    cases t <;> cases x <;> simp_all [Json.beq]
  · simp [Json.beqList]
  · intro x xs y ys ih1 ih2; simp [Json.beqList, ih1, ih2]
  · intro t x h1 h2
    cases t <;> cases x <;>
      first
        | exact (h2 _ _ _ _ rfl rfl).elim
        | simp [Json.beqList]
  · simp [Json.beqFields]
  · intro k v xs k' v' ys ih1 ih2; simp [Json.beqFields, ih1, ih2]
  · intro t x h1 h2
    cases t <;> cases x <;>
      first
        | exact (h2 _ _ _ _ _ _ rfl rfl).elim
        | simp [Json.beqFields]

instance : DecidableEq Json := fun a b => decidable_of_iff _ (Json.beq_iff_eq a b)

/-- The Python exceptions the script can raise, by class.
`formatError` is the `ValueError` raised in `load_json` (the spec's
`FormatError`); `networkError` covers `requests` transport exceptions and
`HTTPError` from `raise_for_status` (the spec's `NetworkError`); `typeError`
also stands for `AttributeError` from `.get` on a non-dict (both mark the
same "wrong runtime type" failure and the claims never distinguish them);
`valueError` is `float()` applied to a non-numeric string. -/
inductive PyError where
  | formatError (msg : String) : PyError
  | networkError : PyError
  | keyError (k : String) : PyError
  | typeError : PyError
  | indexError : PyError
  | valueError : PyError
deriving DecidableEq

/-- Evaluation of `d[k]` on a Python value: key lookup on a dict, `KeyError`
when the key is missing, `TypeError` when the value is not a dict (string
keys on lists, strings, numbers, booleans and `None` all raise). -/
def pySubscript (j : Json) (k : String) : Except PyError Json :=
  match j with
  | .obj kvs =>
    match kvs.lookup k with
    | some v => .ok v
    | none => .error (.keyError k)
  | _ => .error (.typeError)

/-- Evaluation of `d.get(k, default)`: total on dicts, `AttributeError`
(modelled by `typeError`) when the receiver is not a dict. -/
def pyGetD (j : Json) (k : String) (default : Json) : Except PyError Json :=
  match j with
  | .obj kvs => .ok ((kvs.lookup k).getD default)
  | _ => .error (.typeError)

/-- Python truthiness of a JSON value (`if not matches`). -/
def truthy : Json → Bool
  | .null => false
  | .bool b => b
  | .num q => decide (q ≠ 0)
  | .str s => decide (s ≠ "")
  | .arr xs => !xs.isEmpty
  | .obj kvs => !kvs.isEmpty

/-- Evaluation of `v[0]` on a Python value: first element of a list
(`IndexError` when empty), first character of a string, `KeyError` for a
dict (JSON-derived dicts have only string keys, so the integer key `0` is
always missing), `TypeError` otherwise. -/
def pyIndexZero : Json → Except PyError Json
  | .arr [] => .error (.indexError)
  | .arr (x :: _) => .ok x
  | .str s =>
    match s.toList with
    | [] => .error (.indexError)
    | c :: _ => .ok (.str (String.mk [c]))
  | .obj _ => .error (.keyError "0")
  | _ => .error (.typeError)

/-- Key update on an association list: replace the value of an existing key
in place (position preserved), or append the new key at the end, exactly as
Python dict assignment behaves. -/
def setKey (k : String) (v : Json) : List (String × Json) → List (String × Json)
  | [] => [(k, v)]
  | (k', v') :: rest => if k' = k then (k, v) :: rest else (k', v') :: setKey k v rest

/-- Evaluation of `j[k] = v`: dict assignment, `TypeError` otherwise. -/
def pySetItem (j : Json) (k : String) (v : Json) : Except PyError Json :=
  match j with
  | .obj kvs => .ok (.obj (setKey k v kvs))
  | _ => .error (.typeError)

/-- A single-quote character, for Python `repr` rendering. -/
def pyQuote : String := String.mk [Char.ofNat 39]

mutual

/-- Python `repr` of a JSON value, as used by `str()` inside containers.
Numeric rendering stands in for Python's (our `ℚ` merges Python's int/float,
whose reprs differ); every claim about formatted strings concerns
string-valued fields, where the rendering below is exact. -/
def pyRepr : Json → String
  | .null => "None"
  | .bool true => "True"
  | .bool false => "False"
  | .num q => toString q
  | .str s => pyQuote ++ s ++ pyQuote
  | .arr xs => "[" ++ pyReprList xs ++ "]"
  | .obj kvs => "\x7b" ++ pyReprFields kvs ++ "\x7d"

def pyReprList : List Json → String
  | [] => ""
  | [x] => pyRepr x
  | x :: xs => pyRepr x ++ ", " ++ pyReprList xs

def pyReprFields : List (String × Json) → String
  | [] => ""
  | [(k, v)] => pyQuote ++ k ++ pyQuote ++ ": " ++ pyRepr v
  | (k, v) :: kvs => pyQuote ++ k ++ pyQuote ++ ": " ++ pyRepr v ++ ", " ++ pyReprFields kvs

end

/-- Python `str()` of a JSON value, as applied by the f-string
`f'\x7brec["state"]\x7d | \x7brec["address"]\x7d'`: the identity on strings,
`repr`-style rendering otherwise. -/
def pyStr (j : Json) : String :=
  match j with
  | .str s => s
  | _ => pyRepr j

/-- Digit-string value, `none` if empty or containing a non-digit. -/
def parseNatDigits (cs : List Char) : Option ℕ :=
  if cs.isEmpty then none
  else if cs.all Char.isDigit then
    some (cs.foldl (fun a c => 10 * a + (c.toNat - 48)) 0)
  else none

/-- Value of a Python float literal as accepted by `float(str)`: optional
surrounding whitespace and sign, decimal digits with optional fraction and
optional exponent.  (`inf`/`nan` and digit-group underscores are not
modelled; no claim reaches a string-valued coordinate at all.) -/
def parseFloatLit (s : String) : Option ℚ :=
  let cs :=
    ((s.toList.dropWhile Char.isWhitespace).reverse.dropWhile Char.isWhitespace).reverse
  let signAndRest : ℚ × List Char :=
    match cs with
    | '-' :: rest => (-1, rest)
    | '+' :: rest => (1, rest)
    | _ => (1, cs)
  let sign := signAndRest.1
  let cs1 := signAndRest.2
  let mantAndExp := cs1.span (fun c => !(c == 'e' || c == 'E'))
  let expVal : Option ℤ :=
    match mantAndExp.2 with
    | [] => some 0
    | _ :: rest =>
      let esignAndRest : ℤ × List Char :=
        match rest with
        | '-' :: r => (-1, r)
        | '+' :: r => (1, r)
        | _ => (1, rest)
      (parseNatDigits esignAndRest.2).map (fun n => esignAndRest.1 * n)
  let mantVal : Option ℚ :=
    match mantAndExp.1.span (fun c => !(c == '.')) with
    | (ip, []) => (parseNatDigits ip).map (fun n => (n : ℚ))
    | (ip, _ :: fp) =>
      if ip.isEmpty && fp.isEmpty then none
      else if !(ip.all Char.isDigit && fp.all Char.isDigit) then none
      else
        some ((ip.foldl (fun a c => 10 * a + (c.toNat - 48)) 0 : ℕ) +
          (fp.foldl (fun a c => 10 * a + (c.toNat - 48)) 0 : ℕ) / (10 : ℚ) ^ fp.length)
  match mantVal, expVal with
  | some m, some e => some (sign * m * (10 : ℚ) ^ e)
  | _, _ => none

/-- Evaluation of `float(v)`: numbers unchanged, booleans as 0/1, numeric
strings parsed (`ValueError` otherwise), `TypeError` for `None`, lists and
dicts. -/
def pyFloat : Json → Except PyError ℚ
  | .num q => .ok q
  | .bool b => .ok (if b then 1 else 0)
  | .str s =>
    match parseFloatLit s with
    | some q => .ok q
    | none => .error (.valueError)
  | _ => .error (.typeError)

/-- Nearest integer with ties to even, Python's `round` on exact values. -/
def roundHalfEven (q : ℚ) : ℤ :=
  if q - ⌊q⌋ < 1 / 2 then ⌊q⌋
  else if 1 / 2 < q - ⌊q⌋ then ⌊q⌋ + 1
  else if ⌊q⌋ % 2 = 0 then ⌊q⌋ else ⌊q⌋ + 1

/-- Model of `round(x, 6)` in exact arithmetic: the multiple of 10⁻⁶ nearest
to `x`, ties to even. -/
def round6 (q : ℚ) : ℚ := (roundHalfEven (q * 1000000) : ℚ) / 1000000

/-- What the network returns for one `requests.get`: a transport-level
failure (connection error, timeout, ...) or an HTTP status code with the
parsed JSON body. -/
inductive NetResult where
  | transportError : NetResult
  | response (status : ℕ) (body : Json) : NetResult

/-- Model of `load_json` (source lines 23 to 29):

```python
def load_json(path) -> list[dict]:
    with path.open(encoding="utf-8") as f:
        data = json.load(f)
    if not isinstance(data, list):
        raise ValueError("Root element must be a JSON array")
    return data
```

The argument is the parsed content of the file.  Only the root's shape is
checked: any JSON array is returned unchanged, element shapes included. -/
def load_json (data : Json) : Except PyError (List Json) :=
  match data with
  | .arr xs => .ok xs
  | _ => .error (.formatError "Root element must be a JSON array")

/-- Model of `geocode` (source lines 31 to 42):

```python
def geocode(address: str) -> tuple[str, float, float] | None:
    url = CENSUS_URL.format(addr=urllib.parse.quote_plus(address))
    r = requests.get(url, timeout=15)
    r.raise_for_status()
    matches = r.json().get("result", \x7b\x7d).get("addressMatches", [])
    if not matches:
        return None
    best = matches[0]
    coords = best["coordinates"]
    std_addr = best["matchedAddress"]
    return std_addr, float(coords["y"]), float(coords["x"])   # (lat, lon)
```

`quote_plus` raises `TypeError` on a non-string address.
`raise_for_status` raises `HTTPError` exactly for 4xx/5xx status codes.
`matchedAddress` is returned as-is (no conversion), hence `Json` and not
`String` in the result; the coordinates pass through `float`.  Note that the
returned coordinates are NOT rounded here — rounding happens in `main`. -/
def geocode (net : String → NetResult) (address : Json) :
    Except PyError (Option (Json × ℚ × ℚ)) :=
  match address with
  | .str addr =>
    match net addr with
    | .transportError => .error (.networkError)
    | .response status body =>
      if 400 ≤ status ∧ status < 600 then .error (.networkError)
      else
        match pyGetD body "result" (.obj []) with
        | .error e => .error e
        | .ok result =>
          match pyGetD result "addressMatches" (.arr []) with
          | .error e => .error e
          | .ok matchList =>
            if truthy matchList = false then .ok none
            else
              match pyIndexZero matchList with
              | .error e => .error e
              | .ok best =>
                match pySubscript best "coordinates" with
                | .error e => .error e
                | .ok coords =>
                  match pySubscript best "matchedAddress" with
                  | .error e => .error e
                  | .ok stdAddr =>
                    match pySubscript coords "y" with
                    | .error e => .error e
                    | .ok yv =>
                      match pyFloat yv with
                      | .error e => .error e
                      | .ok lat =>
                        match pySubscript coords "x" with
                        | .error e => .error e
                        | .ok xv =>
                          match pyFloat xv with
                          | .error e => .error e
                          | .ok lon => .ok (some (stdAddr, lat, lon))
  | _ => .error (.typeError)

/-- Model of `unique_latlon`'s set comprehension, in evaluation order:
`(r["latitude"], r["longitude"]) for r in records`. -/
def latlonPairs : List Json → Except PyError (List (Json × Json))
  | [] => .ok []
  | r :: rs =>
    match pySubscript r "latitude" with
    | .error e => .error e
    | .ok la =>
      match pySubscript r "longitude" with
      | .error e => .error e
      | .ok lo =>
        match latlonPairs rs with
        | .error e => .error e
        | .ok ps => .ok ((la, lo) :: ps)

/-- Model of `unique_latlon` (source lines 44 to 45):

```python
def unique_latlon(records: list[dict]) -> bool:
    return len(\x7b(r["latitude"], r["longitude"]) for r in records\x7d) == len(records)
```

The set's size is the number of distinct pairs, i.e. the length of the
deduplicated pair list. -/
def unique_latlon (records : List Json) : Except PyError Bool :=
  match latlonPairs records with
  | .error e => .error e
  | .ok pairs => .ok (decide (pairs.dedup.length = records.length))

/-- Model of the per-record geocoding loop of `main` (source lines 66 to 76):
each record in order is geocoded on its `"address"` field; a no-match
appends `f'\x7brec["state"]\x7d | \x7brec["address"]\x7d'` to the failure
list and leaves the record unchanged; a match overwrites `address`,
`latitude` (= `round(lat, 6)`) and `longitude` (= `round(lon, 6)`) in
place.  `time.sleep(args.pause)` runs between records but computes nothing.
Returns the mutated record list and the failure list. -/
def processRecords (net : String → NetResult) :
    List Json → Except PyError (List Json × List String)
  | [] => .ok ([], [])
  | rec :: rest =>
    match pySubscript rec "address" with
    | .error e => .error e
    | .ok addr =>
      match geocode net addr with
      | .error e => .error e
      | .ok none =>
        match pySubscript rec "state" with
        | .error e => .error e
        | .ok st =>
          match pySubscript rec "address" with
          | .error e => .error e
          | .ok ad =>
            match processRecords net rest with
            | .error e => .error e
            | .ok (rest', fs) => .ok (rec :: rest', (pyStr st ++ " | " ++ pyStr ad) :: fs)
      | .ok (some (stdAddr, lat, lon)) =>
        match pySetItem rec "address" stdAddr with
        | .error e => .error e
        | .ok r1 =>
          match pySetItem r1 "latitude" (.num (round6 lat)) with
          | .error e => .error e
          | .ok r2 =>
            match pySetItem r2 "longitude" (.num (round6 lon)) with
            | .error e => .error e
            | .ok r3 =>
              match processRecords net rest with
              | .error e => .error e
              | .ok (rest', fs) => .ok (r3 :: rest', fs)

/-- Model of the Writer (source line 79):
`outp.write_text(json.dumps(records, indent=2), encoding="utf-8")`.
The file afterwards holds exactly the serialization of `records`; at the
parsed-value level its content is the JSON array of the records
(`json.load` inverts `json.dumps` on JSON-representable values, so nothing
is lost or changed by the text encoding). -/
def writeOutput (records : List Json) : Json := .arr records

/-- Model of the Verifier (source lines 82 to 87): re-parse the output file,
discarding the parsed value (`_ = load_json(outp)`), then report whether the
in-memory record list has pairwise-distinct coordinates.  `outFile` is the
parsed content of the output file as re-read from disk. -/
def verifyStage (outFile : Json) (records : List Json) : Except PyError Bool :=
  match load_json outFile with
  | .error e => .error e
  | .ok _ => unique_latlon records

/-- Outcome of a completed run: the mutated records (as written), the
no-match failure strings in record order, and the uniqueness-check verdict
(`true` printed as the success line, `false` as the duplicate warning). -/
structure RunReport where
  records : List Json
  failures : List String
  uniqueOk : Bool
deriving DecidableEq

/-- Model of `main` (source lines 48 to 95) as a function of the parsed
input-file content, the network oracle and the pre-run output-file content
(`none` when the file does not exist).  The returned pair is the run outcome
(an uncaught exception or a `RunReport`) together with the final content of
the output file; on an exception the pair carries the file state at the
moment the exception was raised — only `write_text` (line 79), reached after
the full loop, ever changes it. -/
def main (net : String → NetResult) (input : Json) (out0 : Option Json) :
    Except PyError RunReport × Option Json :=
  match load_json input with
  | .error e => (.error e, out0)
  | .ok records =>
    match processRecords net records with
    | .error e => (.error e, out0)
    | .ok (records', failures) =>
      let written := writeOutput records'
      match verifyStage written records' with
      | .error e => (.error e, some written)
      | .ok u => (.ok ⟨records', failures, u⟩, some written)

/-- A well-formed input record, as in `us_state_capitals.json`. -/
def mkRecord (st ad : String) (la lo : ℚ) : Json :=
  .obj [("state", .str st), ("address", .str ad), ("latitude", .num la), ("longitude", .num lo)]

/-- A geocoder response body with exactly one address match, in the Census
`result.addressMatches` shape (`x` = longitude, `y` = latitude). -/
def matchBody (matchedAddr : String) (x y : ℚ) : Json :=
  .obj [("result", .obj [("addressMatches", .arr [
    .obj [("coordinates", .obj [("x", .num x), ("y", .num y)]),
          ("matchedAddress", .str matchedAddr)]])])]

/-- A geocoder response body with an explicitly empty match list. -/
def noMatchBody : Json :=
  .obj [("result", .obj [("addressMatches", .arr [])])]

/-- Network oracle of the spec's end-to-end scenario: every query matches
Columbus, OH at x = -82.998794, y = 39.961332. -/
def ohioNet : String → NetResult :=
  fun _ => .response 200 (matchBody "COLUMBUS, OH" (-82998794 / 1000000) (39961332 / 1000000))

/-- The spec's end-to-end input record for Ohio. -/
def ohioRec : Json := mkRecord "Ohio" "Columbus, OH" 0 0

/-- Network oracle that finds no match for any query. -/
def emptyMatchNet : String → NetResult := fun _ => .response 200 noMatchBody

/-- Network oracle whose every request fails at the transport level. -/
def downNet : String → NetResult := fun _ => .transportError

/-- Network oracle returning one match whose latitude 0.12345678 has more
than 6 decimal places, so that rounding would change it. -/
def unroundedNet : String → NetResult :=
  fun _ => .response 200 (matchBody "A ST" 2 (12345678 / 100000000))

/-- Network oracle whose response body maps "result" to a non-dict, so that
the chained `.get` raises. -/
def badResultNet : String → NetResult :=
  fun _ => .response 200 (.obj [("result", .num 5)])

/-- Network oracle whose response body is a dict without "result". -/
def bareBodyNet : String → NetResult := fun _ => .response 200 (.obj [])

/-- Records with coordinate pairs (1,1), (2,2), (1,1) — the spec's duplicate
example. -/
def dupRecs : List Json :=
  [mkRecord "A" "a" 1 1, mkRecord "B" "b" 2 2, mkRecord "C" "c" 1 1]

/-- Records with coordinate pairs (1,1), (2,2), (3,3) — the spec's
all-distinct example. -/
def uniqRecs : List Json :=
  [mkRecord "A" "a" 1 1, mkRecord "B" "b" 2 2, mkRecord "C" "c" 3 3]

/-- One record with coordinate pair (5,6). -/
def oneRec : List Json := [mkRecord "D" "d" 5 6]

/-- A record over exactly the supported field set of the data model:
`state`, `address`, `latitude`, `longitude`. -/
structure CapRecord where
  state : String
  address : String
  latitude : ℚ
  longitude : ℚ

/-- The JSON object a `CapRecord` is stored as. -/
def CapRecord.toJson (r : CapRecord) : Json :=
  .obj [("state", .str r.state), ("address", .str r.address),
        ("latitude", .num r.latitude), ("longitude", .num r.longitude)]

end StateCapitolVerifier

deriving instance DecidableEq for Except

namespace StateCapitolVerifier

attribute [local semireducible] Rat.mul Rat.inv Rat.add Rat.sub

theorem lookup_setKey_self (k : String) (v : Json) (kvs : List (String × Json)) :
    (setKey k v kvs).lookup k = some v := by
  induction kvs with
  | nil => simp [setKey, List.lookup]
  | cons hd tl ih =>
    obtain ⟨k', v'⟩ := hd
    by_cases h : k' = k
    · subst h; simp [setKey, List.lookup]
    · have hb : (k == k') = false := by
        simp only [beq_eq_false_iff_ne]; exact fun e => h e.symm
      simp [setKey, h, List.lookup, hb, ih]

theorem lookup_setKey_ne (k k' : String) (v : Json) (kvs : List (String × Json))
    (h : k' ≠ k) : (setKey k v kvs).lookup k' = kvs.lookup k' := by
  have hb : (k' == k) = false := by simp only [beq_eq_false_iff_ne]; exact h
  induction kvs with
  | nil => simp [setKey, List.lookup, hb]
  | cons hd tl ih =>
    obtain ⟨k1, v1⟩ := hd
    by_cases h1 : k1 = k
    · subst h1; simp [setKey, List.lookup, hb]
    · simp [setKey, h1, List.lookup, ih]

theorem processRecords_cons_error (net : String → NetResult) (rec : Json)
    (rest : List Json) (a : Json) (e : PyError)
    (haddr : pySubscript rec "address" = .ok a)
    (hgeo : geocode net a = .error e) :
    processRecords net (rec :: rest) = .error e := by
  simp [processRecords, haddr, hgeo]

theorem processRecords_append_error (net : String → NetResult) (xs : List Json) :
    ∀ (res : List Json × List String) (ys : List Json) (e : PyError),
    processRecords net xs = .ok res → processRecords net ys = .error e →
    processRecords net (xs ++ ys) = .error e := by
  induction xs with
  | nil =>
    intro res ys e h1 h2
    simpa using h2
  | cons x xs0 ih =>
    intro res ys e h1 h2
    rw [List.cons_append]
    simp only [processRecords] at h1 ⊢
    cases ha : pySubscript x "address" with
    | error e1 => simp [ha] at h1
    | ok addr =>
      simp only [ha] at h1 ⊢
      cases hg : geocode net addr with
      | error e1 => simp [hg] at h1
      | ok r =>
        simp only [hg] at h1 ⊢
        cases r with
        | none =>
          cases hs : pySubscript x "state" with
          | error e1 => simp [hs] at h1
          | ok st =>
            simp only [hs] at h1 ⊢
            cases hr : processRecords net xs0 with
            | error e1 => simp [hr] at h1
            | ok pr =>
              rw [ih pr ys e hr h2]
        | some t =>
          obtain ⟨stdA, lat, lon⟩ := t
          cases h3 : pySetItem x "address" stdA with
          | error e1 => simp [h3] at h1
          | ok r1 =>
            simp only [h3] at h1 ⊢
            cases h4 : pySetItem r1 "latitude" (.num (round6 lat)) with
            | error e1 => simp [h4] at h1
            | ok r2 =>
              simp only [h4] at h1 ⊢
              cases h5 : pySetItem r2 "longitude" (.num (round6 lon)) with
              | error e1 => simp [h5] at h1
              | ok r3 =>
                simp only [h5] at h1 ⊢
                cases hr : processRecords net xs0 with
                | error e1 => simp [hr] at h1
                | ok pr =>
                  rw [ih pr ys e hr h2]

/-- C3 counterexample: the parsed root `[5]` is an array but NOT a sequence
of objects, yet `load_json` accepts it and returns it unchanged instead of
failing with a `FormatError`. -/
theorem C3_counterexample :
    load_json (Json.arr [Json.num 5]) = .ok [Json.num 5] ∧
    ∀ e : PyError, load_json (Json.arr [Json.num 5]) ≠ .error e := by
  constructor
  · rfl
  · intro e h
    simp [load_json] at h

/-- C3 (amended): for every parsed root that is an array, `load_json`
returns its elements unchanged (hence, for an array of objects with the
required fields, a sequence of the same length whose fields are accessible
by name); for every parsed root that is not an array — element shapes are
never inspected — it fails with the `FormatError`
`ValueError("Root element must be a JSON array")`. -/
theorem C3_loader_contract :
    (∀ xs : List Json, load_json (Json.arr xs) = .ok xs) ∧
    (∀ (xs : List Json) (rs : List Json),
      load_json (Json.arr xs) = .ok rs → rs.length = xs.length) ∧
    (∀ j : Json, (∀ xs, j ≠ Json.arr xs) →
      load_json j = .error (.formatError "Root element must be a JSON array")) := by
  refine ⟨fun xs => rfl, ?_, ?_⟩
  · intro xs rs h
    simp only [load_json, Except.ok.injEq] at h
    rw [h]
  · intro j h
    cases j with
    | arr xs => exact absurd rfl (h xs)
    | null => rfl
    | bool b => rfl
    | num q => rfl
    | str s => rfl
    | obj kvs => rfl

/-- C3 witness: at the concrete non-array root `3`, the Loader fails with
the `FormatError`. -/
theorem C3_witness :
    load_json (Json.num 3) = .error (.formatError "Root element must be a JSON array") :=
  C3_loader_contract.2.2 (Json.num 3) (fun _ h => Json.noConfusion h)

/-- C10: the Loader validates no individual element — any array root is
returned unchanged, bad elements included; such an element is only detected
in the pipeline loop, whose field access raises `TypeError` for a non-dict
record and `KeyError` for a dict record without `"address"`, uncaught. -/
theorem C10_loader_defers_element_errors :
    (∀ xs : List Json, load_json (Json.arr xs) = .ok xs) ∧
    (∀ (net : String → NetResult) (rec : Json) (rest : List Json),
      (∀ kvs, rec ≠ Json.obj kvs) →
      processRecords net (rec :: rest) = .error (.typeError)) ∧
    (∀ (net : String → NetResult) (kvs : List (String × Json)) (rest : List Json),
      kvs.lookup "address" = none →
      processRecords net (Json.obj kvs :: rest) = .error (.keyError "address")) := by
  refine ⟨fun xs => rfl, ?_, ?_⟩
  · intro net rec rest h
    have haddr : pySubscript rec "address" = .error (.typeError) := by
      cases rec with
      | obj kvs => exact absurd rfl (h kvs)
      | null => rfl
      | bool b => rfl
      | num q => rfl
      | str s => rfl
      | arr xs => rfl
    simp [processRecords, haddr]
  · intro net kvs rest h
    simp [processRecords, pySubscript, h]

/-- C10 witness: the loader passes the non-object element `7` through, and
the pipeline then raises `TypeError` at its field access. -/
theorem C10_witness :
    load_json (Json.arr [Json.num 7]) = .ok [Json.num 7] ∧
    processRecords downNet [Json.num 7] = .error (.typeError) :=
  ⟨C10_loader_defers_element_errors.1 [Json.num 7],
   C10_loader_defers_element_errors.2.1 downNet (Json.num 7) []
     (fun _ h => Json.noConfusion h)⟩

/-- C4: `unique_latlon` reports true exactly when the number of distinct
(latitude, longitude) pairs equals the number of records; on the spec's
examples, pairs (1,1), (2,2), (1,1) give false and (1,1), (2,2), (3,3)
give true. -/
theorem C4_unique_latlon :
    (∀ (records : List Json) (pairs : List (Json × Json)),
      latlonPairs records = .ok pairs →
      (unique_latlon records = .ok true ↔ pairs.dedup.length = records.length)) ∧
    unique_latlon dupRecs = .ok false ∧
    unique_latlon uniqRecs = .ok true := by
  refine ⟨?_, by decide, by decide⟩
  intro records pairs h
  simp [unique_latlon, h]

/-- C4 witness: the uniqueness verdict for the single record with pair
(5,6), derived through the general equivalence. -/
theorem C4_witness : unique_latlon oneRec = .ok true :=
  (C4_unique_latlon.1 oneRec [(.num 5, .num 6)] rfl).mpr (by decide)

/-- C8: the duplicate-coordinate verdict of the verification stage is the
uniqueness check of the in-memory record list alone — the re-loaded output
file only has to parse, its parsed value being discarded — and a parse
failure of the output file propagates as the run's error. -/
theorem C8_verifier_independence :
    (∀ (outFile : Json) (records : List Json) (xs : List Json),
      load_json outFile = .ok xs →
      verifyStage outFile records = unique_latlon records) ∧
    (∀ (outFile : Json) (records : List Json) (e : PyError),
      load_json outFile = .error e → verifyStage outFile records = .error e) := by
  constructor
  · intro outFile records xs h
    simp [verifyStage, h]
  · intro outFile records e h
    simp [verifyStage, h]

/-- C8 witness: a parseable output file yields the in-memory verdict; an
unparseable output file propagates the Loader's error. -/
theorem C8_witness :
    verifyStage (Json.arr []) oneRec = unique_latlon oneRec ∧
    verifyStage (Json.num 0) oneRec =
      .error (.formatError "Root element must be a JSON array") :=
  ⟨C8_verifier_independence.1 (Json.arr []) oneRec [] rfl,
   C8_verifier_independence.2 (Json.num 0) oneRec _ rfl⟩

/-- C1 counterexample: on a response with one match whose y-coordinate
0.12345678 has more than 6 decimal places, `geocode` returns the coordinate
unrounded — the claim's "rounded to 6 decimals" does not hold of the
Geocoder client's return value. -/
theorem C1_counterexample :
    geocode unroundedNet (.str "q") =
      .ok (some (.str "A ST", 12345678 / 100000000, 2)) ∧
    round6 (12345678 / 100000000) ≠ (12345678 / 100000000 : ℚ) := by
  constructor
  · decide
  · decide

/-- C1 (amended): for a response with an empty match list, `geocode` returns
the no-match outcome `none`; for a response with one or more matches it
returns the first match's standardized address together with the coordinate
pair taken as (lat, lon) = (y, x) — the service's x/y swapped — UNROUNDED:
rounding to 6 decimals is applied by the pipeline driver when it stores the
coordinates (see C6). -/
theorem C1_geocode_first_match :
    (∀ (net : String → NetResult) (a : String) (status : ℕ) (body result : Json),
      net a = .response status body → status < 400 →
      pyGetD body "result" (.obj []) = .ok result →
      pyGetD result "addressMatches" (.arr []) = .ok (.arr []) →
      geocode net (.str a) = .ok none) ∧
    (∀ (net : String → NetResult) (a : String) (status : ℕ)
      (body result best stdAddr : Json) (ms : List Json)
      (ckvs : List (String × Json)) (yq xq : ℚ),
      net a = .response status body → status < 400 →
      pyGetD body "result" (.obj []) = .ok result →
      pyGetD result "addressMatches" (.arr []) = .ok (.arr (best :: ms)) →
      pySubscript best "coordinates" = .ok (.obj ckvs) →
      pySubscript best "matchedAddress" = .ok stdAddr →
      ckvs.lookup "y" = some (.num yq) →
      ckvs.lookup "x" = some (.num xq) →
      geocode net (.str a) = .ok (some (stdAddr, yq, xq))) := by
  constructor
  · intro net a status body result hnet hlt hres hm
    have hcond : ¬(400 ≤ status ∧ status < 600) := by omega
    simp [geocode, hnet, hcond, hres, hm, truthy]
  · intro net a status body result best stdAddr ms ckvs yq xq
      hnet hlt hres hm hcoords hstd hy hx
    have hcond : ¬(400 ≤ status ∧ status < 600) := by omega
    have hys : pySubscript (Json.obj ckvs) "y" = .ok (.num yq) := by
      simp [pySubscript, hy]
    have hxs : pySubscript (Json.obj ckvs) "x" = .ok (.num xq) := by
      simp [pySubscript, hx]
    simp [geocode, hnet, hcond, hres, hm, truthy, pyIndexZero, hcoords, hstd,
      hys, hxs, pyFloat]

/-- C1 witness: the spec's Ohio scenario — one match, standardized address
COLUMBUS, OH, (lat, lon) = (y, x) = (39.961332, -82.998794). -/
theorem C1_witness :
    geocode ohioNet (.str "Columbus, OH") =
      .ok (some (.str "COLUMBUS, OH", 39961332 / 1000000, -82998794 / 1000000)) :=
  C1_geocode_first_match.2 ohioNet "Columbus, OH" 200
    (matchBody "COLUMBUS, OH" (-82998794 / 1000000) (39961332 / 1000000))
    (.obj [("addressMatches", .arr [
      .obj [("coordinates", .obj [("x", .num (-82998794 / 1000000)),
                                  ("y", .num (39961332 / 1000000))]),
            ("matchedAddress", .str "COLUMBUS, OH")]])])
    (.obj [("coordinates", .obj [("x", .num (-82998794 / 1000000)),
                                 ("y", .num (39961332 / 1000000))]),
           ("matchedAddress", .str "COLUMBUS, OH")])
    (.str "COLUMBUS, OH") []
    [("x", .num (-82998794 / 1000000)), ("y", .num (39961332 / 1000000))]
    (39961332 / 1000000) (-82998794 / 1000000)
    rfl (by decide) rfl rfl rfl rfl rfl rfl

/-- C9 counterexample: with response body `{"result": 5}` the
`"addressMatches"` key is absent, yet `geocode` does not return the no-match
outcome: the chained `.get` on the non-dict `5` raises (`AttributeError`,
modelled as `typeError`). -/
theorem C9_counterexample :
    geocode badResultNet (.str "q") = .error (.typeError) ∧
    geocode badResultNet (.str "q") ≠ .ok none := by
  constructor
  · decide
  · decide

/-- C9 (amended): for every response whose body is an object in which the
`"result"` key is absent, or maps `"result"` to an object in which the
`"addressMatches"` key is absent, `geocode` treats the response as a
no-match and returns `none` rather than raising, exactly as for an
explicitly empty match list. (When `"result"` is present but not an object,
the chained `.get` raises instead — see the counterexample.) -/
theorem C9_missing_keys (net : String → NetResult) (a : String) (status : ℕ)
    (bkvs : List (String × Json))
    (hnet : net a = .response status (.obj bkvs)) (hlt : status < 400)
    (h : bkvs.lookup "result" = none ∨
      ∃ rkvs, bkvs.lookup "result" = some (.obj rkvs) ∧
        rkvs.lookup "addressMatches" = none) :
    geocode net (.str a) = .ok none := by
  have hcond : ¬(400 ≤ status ∧ status < 600) := by omega
  rcases h with h | ⟨rkvs, h1, h2⟩
  · simp [geocode, hnet, hcond, pyGetD, h, truthy, List.lookup]
  · simp [geocode, hnet, hcond, pyGetD, h1, h2, truthy]

/-- C9 witness: a bare object body (no "result" key at all) is a no-match. -/
theorem C9_witness : geocode bareBodyNet (.str "q") = .ok none :=
  C9_missing_keys bareBodyNet "q" 200 [] rfl (by decide) (Or.inl rfl)

/-- C5: a record on which the geocoder reports no match is passed through
unmodified, the string `"{state} | {address}"` is appended to
the failure list, and the loop continues over the remaining records and
completes normally — the no-match outcome is reported, not raised. -/
theorem C5_no_match_soft_failure (net : String → NetResult) (rec : Json)
    (rest rest' : List Json) (fs : List String) (st ad : String)
    (hst : pySubscript rec "state" = .ok (.str st))
    (had : pySubscript rec "address" = .ok (.str ad))
    (hgeo : geocode net (.str ad) = .ok none)
    (hrest : processRecords net rest = .ok (rest', fs)) :
    processRecords net (rec :: rest) =
      .ok (rec :: rest', (st ++ " | " ++ ad) :: fs) := by
  simp [processRecords, had, hgeo, hst, hrest, pyStr]

/-- C5 witness: the Ohio record against a no-match oracle — record
unchanged, one failure entry "Ohio | Columbus, OH". -/
theorem C5_witness :
    processRecords emptyMatchNet [ohioRec] =
      .ok ([ohioRec], ["Ohio | Columbus, OH"]) :=
  C5_no_match_soft_failure emptyMatchNet ohioRec [] [] [] "Ohio" "Columbus, OH"
    rfl rfl (by decide) rfl

/-- C6: a record on which the geocoder returns a match has its `address`
overwritten with the standardized address and its `latitude`/`longitude`
overwritten with the coordinates rounded to 6 decimal places, while every
other key — `state` in particular — keeps its value. (In the no-match case
the whole record is unchanged, see C5, so `state` is never modified.) -/
theorem C6_match_overwrites (net : String → NetResult) (kvs : List (String × Json))
    (rest rest' : List Json) (fs : List String) (ad : String) (stdAddr : Json)
    (lat lon : ℚ)
    (had : kvs.lookup "address" = some (.str ad))
    (hgeo : geocode net (.str ad) = .ok (some (stdAddr, lat, lon)))
    (hrest : processRecords net rest = .ok (rest', fs)) :
    ∃ kvs', processRecords net (Json.obj kvs :: rest) =
        .ok (Json.obj kvs' :: rest', fs) ∧
      kvs'.lookup "address" = some stdAddr ∧
      kvs'.lookup "latitude" = some (.num (round6 lat)) ∧
      kvs'.lookup "longitude" = some (.num (round6 lon)) ∧
      ∀ k, k ≠ "address" → k ≠ "latitude" → k ≠ "longitude" →
        kvs'.lookup k = kvs.lookup k := by
  refine ⟨setKey "longitude" (.num (round6 lon))
      (setKey "latitude" (.num (round6 lat)) (setKey "address" stdAddr kvs)),
    ?_, ?_, ?_, ?_, ?_⟩
  · simp [processRecords, pySubscript, had, hgeo, pySetItem, hrest]
  · rw [lookup_setKey_ne _ _ _ _ (by decide), lookup_setKey_ne _ _ _ _ (by decide),
      lookup_setKey_self]
  · rw [lookup_setKey_ne _ _ _ _ (by decide), lookup_setKey_self]
  · rw [lookup_setKey_self]
  · intro k h1 h2 h3
    rw [lookup_setKey_ne _ _ _ _ h3, lookup_setKey_ne _ _ _ _ h2,
      lookup_setKey_ne _ _ _ _ h1]

/-- C6 witness: the Ohio record against the matching oracle — address and
coordinates overwritten (rounded), state preserved. -/
theorem C6_witness :
    ∃ kvs', processRecords ohioNet [ohioRec] = .ok ([Json.obj kvs'], []) ∧
      kvs'.lookup "address" = some (.str "COLUMBUS, OH") ∧
      kvs'.lookup "latitude" = some (.num (round6 (39961332 / 1000000))) ∧
      kvs'.lookup "longitude" = some (.num (round6 (-82998794 / 1000000))) ∧
      ∀ k, k ≠ "address" → k ≠ "latitude" → k ≠ "longitude" →
        kvs'.lookup k =
          [("state", Json.str "Ohio"), ("address", Json.str "Columbus, OH"),
           ("latitude", Json.num 0), ("longitude", Json.num 0)].lookup k :=
  C6_match_overwrites ohioNet
    [("state", Json.str "Ohio"), ("address", Json.str "Columbus, OH"),
     ("latitude", Json.num 0), ("longitude", Json.num 0)]
    [] [] [] "Columbus, OH" (.str "COLUMBUS, OH")
    (39961332 / 1000000) (-82998794 / 1000000) rfl (by decide) rfl

/-- C2: if the geocoding call fails with a `NetworkError` at any position of
the record list (all records before it having processed normally), the error
propagates uncaught out of `main` and the output file keeps its pre-run
content: the Writer runs only once, after the full loop, so no partial
output is ever written. -/
theorem C2_network_error_halts_run (net : String → NetResult) (input : Json)
    (out0 : Option Json) (pre post : List Json) (rec : Json)
    (res : List Json × List String) (a : Json)
    (hload : load_json input = .ok (pre ++ rec :: post))
    (hpre : processRecords net pre = .ok res)
    (haddr : pySubscript rec "address" = .ok a)
    (hgeo : geocode net a = .error (.networkError)) :
    main net input out0 = (.error (.networkError), out0) := by
  have h1 : processRecords net (rec :: post) = .error (.networkError) :=
    processRecords_cons_error net rec post a _ haddr hgeo
  have h2 : processRecords net (pre ++ rec :: post) = .error (.networkError) :=
    processRecords_append_error net pre res _ _ hpre h1
  simp [main, hload, h2]

/-- C2 witness: with the network down, a one-record run fails with
`NetworkError` and the output file keeps its previous content. -/
theorem C2_witness :
    main downNet (Json.arr [ohioRec]) (some (Json.arr [])) =
      (.error (.networkError), some (Json.arr [])) :=
  C2_network_error_halts_run downNet (Json.arr [ohioRec]) (some (Json.arr []))
    [] [] ohioRec ([], []) (.str "Columbus, OH") rfl rfl rfl rfl

/-- C7: writing any record sequence with the Writer and re-reading it
through the Loader returns the very same sequence (same length, identical
elements); on the supported field set, every field of every record is
recovered by name with its original value — serialization is lossless. -/
theorem C7_round_trip :
    (∀ records : List Json, load_json (writeOutput records) = .ok records) ∧
    (∀ rs : List CapRecord,
      load_json (writeOutput (rs.map CapRecord.toJson)) =
        .ok (rs.map CapRecord.toJson) ∧
      (rs.map CapRecord.toJson).length = rs.length) ∧
    (∀ r : CapRecord,
      pySubscript r.toJson "state" = .ok (.str r.state) ∧
      pySubscript r.toJson "address" = .ok (.str r.address) ∧
      pySubscript r.toJson "latitude" = .ok (.num r.latitude) ∧
      pySubscript r.toJson "longitude" = .ok (.num r.longitude)) := by
  refine ⟨fun records => rfl, fun rs => ⟨rfl, by simp⟩, fun r => ?_⟩
  refine ⟨?_, ?_, ?_, ?_⟩ <;> rfl

end StateCapitolVerifier
